import Mathlib

/- Shallow embedding of the CO2 alarm firmware (src/CO2AlarmSystem/CO2AlarmSystem.ino).
   Machine integers are modeled as Int (readings, thresholds, tone durations) and
   Nat (millisecond clocks); millis() deltas use truncated Nat subtraction, which
   agrees with the unsigned wraparound arithmetic of the source for a monotone
   clock.  Each pass of loop() is modeled at a single instant: every call to the
   millisecond clock inside one iteration returns the iteration time, so the
   blocking waits of the command engine do not advance the loop clock.  Fallible
   sensor reads are Option inputs, and uninitialized local variables are Option
   values that start out as none.  The static locals of the source are threaded
   through the functions as explicit state. -/

/- Severity classification: the threshold chain of loop(), lines 125-163.
   The local currentCO2Threshold is initialized to -1 and overwritten by the
   branch taken; the -1 initial value is kept as the final fallthrough. -/
def classify (ppm : Int) : Int :=
  if ppm < 1000 then 0
  else if 1000 ≤ ppm ∧ ppm < 2500 then 1
  else if 2500 ≤ ppm ∧ ppm < 5000 then 2
  else if 5000 ≤ ppm ∧ ppm < 10000 then 3
  else if 10000 ≤ ppm ∧ ppm < 30000 then 4
  else if 30000 ≤ ppm then 5
  else -1

/- Pitch constant from pitches.h used by buzzerManager. -/
def NOTE_C5 : Int := 523

/- Observable effects of the alarm block: deleting a timer, requesting a buzzer
   tone, arming a periodic timer. -/
inductive AlarmAction where
  | cancel (id : Int)
  | pulse (pitch duration : Int)
  | arm (id : Int) (period : Int)
deriving DecidableEq, Repr

def AlarmAction.isCancel : AlarmAction → Bool
  | .cancel _ => true
  | _ => false

def AlarmAction.isArm : AlarmAction → Bool
  | .arm _ _ => true
  | _ => false

/- The SimpleTimer library object: a pool of armed interval timers.  setInterval
   returns a fresh nonnegative id, deleteTimer removes the timer with the given
   id.  The pool makes the claim about simultaneously armed timers statable. -/
structure TimerPool where
  timers : List (Int × Int)
  nextId : Int
deriving DecidableEq, Repr

def TimerPool.setInterval (p : TimerPool) (period : Int) : TimerPool × Int :=
  (⟨(p.nextId, period) :: p.timers, p.nextId + 1⟩, p.nextId)

def TimerPool.deleteTimer (p : TimerPool) (id : Int) : TimerPool :=
  ⟨p.timers.filter (fun t => t.1 ≠ id), p.nextId⟩

/- buzzerManager, lines 220-237.  The static local buzzerDuration persists
   across calls and is threaded explicitly; note that the function always
   requests a tone, with whatever duration the chain left in the static. -/
def buzzerManager (co2Level : Int) (buzzerDuration : Int) : Int × AlarmAction :=
  let d1 := if 1000 ≤ co2Level ∧ co2Level < 5000 then 2000 else buzzerDuration
  let d2 := if 5000 ≤ co2Level ∧ co2Level < 10000 then 1000 else d1
  let d3 := if 10000 ≤ co2Level then 500 else d2
  (d3, AlarmAction.pulse NOTE_C5 d3)

/- The switch statement of loop(), lines 186-200: arm the periodic timer for the
   new threshold.  Returns the new pool, the new timerId and the arm trace. -/
def armFor (pool : TimerPool) (c : Int) (tid : Int) : TimerPool × Int × List AlarmAction :=
  if c = 2 then
    let r := pool.setInterval 10000
    (r.1, r.2, [AlarmAction.arm r.2 10000])
  else if c = 3 then
    let r := pool.setInterval 5000
    (r.1, r.2, [AlarmAction.arm r.2 5000])
  else if c = 4 then
    let r := pool.setInterval 1000
    (r.1, r.2, [AlarmAction.arm r.2 1000])
  else if c = 5 then
    let r := pool.setInterval 1000
    (r.1, r.2, [AlarmAction.arm r.2 1000])
  else (pool, tid, [])

/- State owned by the buzzer / timer logic: the SimpleTimer pool, the globals
   timerId and lastCO2Threshold, and the static buzzerDuration of
   buzzerManager. -/
structure AlarmState where
  pool : TimerPool
  timerId : Int
  lastCO2Threshold : Int
  buzzerDuration : Int
deriving DecidableEq, Repr

/- The buzzer system block of loop(), lines 174-202: on a threshold change,
   delete the pending timer if any, fire one immediate pulse, arm the new
   periodic timer per the switch, and record the new threshold. -/
def alarmStep (s : AlarmState) (c : Int) (ppm : Int) : AlarmState × List AlarmAction :=
  if c ≠ s.lastCO2Threshold then
    let cancelR : TimerPool × Int × List AlarmAction :=
      if s.timerId ≠ -1 then
        (s.pool.deleteTimer s.timerId, -1, [AlarmAction.cancel s.timerId])
      else (s.pool, s.timerId, [])
    let bz := buzzerManager ppm s.buzzerDuration
    let armR := armFor cancelR.1 c cancelR.2.1
    (⟨armR.1, armR.2.1, c, bz.1⟩, cancelR.2.2 ++ [bz.2] ++ armR.2.2)
  else (s, [])

/- Boot values: timerId = -1, lastCO2Threshold = -2 (lines 46-47), an empty
   timer pool, buzzerDuration = 0 (line 222). -/
def initAlarm : AlarmState :=
  ⟨⟨[], 0⟩, -1, -2, 0⟩

/- Iterated alarm steps over a sequence of successful CO2 readings. -/
def alarmRun (readings : List Int) : AlarmState :=
  readings.foldl (fun s ppm => (alarmStep s (classify ppm) ppm).1) initAlarm

/- Invariant of the alarm state: at most one armed timer, every armed timer
   carries the recorded timerId, timerId = -1 means no armed timer, and ids
   handed out by the pool are nonnegative so -1 stays a distinct sentinel. -/
def AlarmInv (s : AlarmState) : Prop :=
  s.pool.timers.length ≤ 1 ∧
  (∀ t ∈ s.pool.timers, t.1 = s.timerId) ∧
  (s.timerId = -1 → s.pool.timers = []) ∧
  0 ≤ s.pool.nextId

/- Spec-side table for claim C2, restating the periods the claim assigns to
   each severity level, to be compared with the switch actually in the code. -/
def claimedPeriodForLevel (c : Int) : Option Int :=
  if c = 3 then some 10000
  else if c = 4 then some 5000
  else if c = 5 then some 1000
  else none

/- Code-side table: the period the switch of lines 186-200 arms for each
   threshold value. -/
def periodForThreshold (c : Int) : Option Int :=
  if c = 2 then some 10000
  else if c = 3 then some 5000
  else if c = 4 then some 1000
  else if c = 5 then some 1000
  else none

/- ledBlink, lines 240-274.  The statics ledStartTime and ledOn are the
   explicit state; the result carries the RGB write performed when the toggle
   fires (red for overrange, amber otherwise, dark in the off phase). -/
structure BlinkState where
  ledStartTime : Nat
  ledOn : Bool
deriving DecidableEq, Repr

def ledBlink (co2Level : Int) (now : Nat) (s : BlinkState) : BlinkState × Option (Int × Int × Int) :=
  if 500 ≤ now - s.ledStartTime then
    let lit := !s.ledOn
    let rgb : Int × Int × Int :=
      if lit then
        if 30000 ≤ co2Level ∨ co2Level ≤ 0 then (255, 0, 0)
        else (255, 100, 0)
      else (0, 0, 0)
    (⟨now, lit⟩, some rgb)
  else (s, none)

/- Number of toggles ledBlink performs over a list of call instants. -/
def blinkToggleCount (co2Level : Int) (calls : List Nat) (s : BlinkState) : Nat :=
  (calls.foldl
    (fun (acc : BlinkState × Nat) t =>
      let r := ledBlink co2Level t acc.1
      (r.1, acc.2 + (if r.2.isSome then 1 else 0)))
    (s, 0)).2

/- Call schedule with n calls spaced step milliseconds apart, starting at 0. -/
def schedule (step n : Nat) : List Nat :=
  (List.range n).map (fun k => k * step)

/- The inbound serial stream for the command engine, abstracted as the instant
   at which the expected substring becomes available to find, if ever. -/
structure MockTransport where
  emitAt : Option Nat
deriving DecidableEq, Repr

/- One esp8266.find poll at instant t succeeds when the marker is available. -/
def findPoll (tr : MockTransport) (t : Nat) : Bool :=
  match tr.emitAt with
  | some e => decide (e ≤ t)
  | none => false

/- The busy-wait loop of sendCommand, lines 313-320: while
   millis() - startTime < maxTime, poll the stream; each poll advances the
   clock by one millisecond.  The fuel argument makes the recursion structural;
   maxTime + 1 units of fuel cover the whole window. -/
def pollLoop (tr : MockTransport) (startTime maxTime : Nat) : Nat → Nat → Bool × Nat
  | 0, t => (false, t)
  | fuel + 1, t =>
    if t - startTime < maxTime then
      if findPoll tr t then (true, t)
      else pollLoop tr startTime maxTime fuel (t + 1)
    else (false, t)

/- sendCommand, lines 304-331: println the command (appending the line
   terminator), then busy-wait for the expected marker.  The result is the
   written line, the reported success flag, and the instant at which the wait
   ended. -/
def sendCommand (tr : MockTransport) (command : String) (startTime maxTime : Nat) :
    String × Bool × Nat :=
  (command ++ "\r\n", pollLoop tr startTime maxTime (maxTime + 1) startTime)

/- Connection constants, lines 51-53. -/
def HOST : String := "api.thingspeak.com"
def PORT : String := "80"
def API : String := "API_KEY"

/- The three transports consulted by the upload sequence, one per sendCommand
   of sendToThingSpeak. -/
structure UploadEnv where
  startTr : MockTransport
  sendTr : MockTransport
  closeTr : MockTransport
deriving DecidableEq, Repr

/- sendToThingSpeak, lines 285-296: CIPSTART, CIPSEND, raw payload write,
   settle delay, CIPCLOSE.  The function returns void in the source; here the
   per-step results are returned for observation only, together with the
   payload values it was handed.  The byte-length argument of CIPSEND is
   elided: no claim depends on it, and its value is indeterminate because the
   temperature and humidity arguments are (see loopStep). -/
def sendToThingSpeak (env : UploadEnv) (temperature humidity : Option Int) (co2 : Int) :
    List Bool × (Option Int × Option Int × Int) :=
  let r1 := sendCommand env.startTr ("AT+CIPSTART=\"TCP\",\"" ++ HOST ++ "\"," ++ PORT) 0 4000
  let r2 := sendCommand env.sendTr ("AT+CIPSEND=") 0 2000
  let r3 := sendCommand env.closeTr ("AT+CIPCLOSE") 0 2000
  ([r1.2.1, r2.2.1, r3.2.1], (temperature, humidity, co2))

/- measureEnvironment, lines 83-97: sample the DHT11 no more often than every
   3 seconds; the static measurementTimestamp advances only on a successful
   measurement.  The dht argument is the optional sensor outcome; temperature
   and humidity floats are carried as an integer pair, since only their flow
   matters to the claims. -/
def measureEnvironment (now : Nat) (measurementTimestamp : Nat)
    (dht : Option (Int × Int)) : Option (Int × Int) × Nat :=
  if 3000 < now - measurementTimestamp then
    match dht with
    | some th => (some th, now)
    | none => (none, measurementTimestamp)
  else (none, measurementTimestamp)

/- The arguments handed to sendToThingSpeak by one upload, plus the per-step
   command results. -/
structure UploadRecord where
  temperature : Option Int
  humidity : Option Int
  co2 : Int
  results : List Bool
deriving DecidableEq, Repr

/- The ThingSpeak gate of loop(), lines 138-171: the upload sits in the else
   branch of the threshold chain (reached exactly when ppm ≥ 2500) and fires
   when at least 15 s (sendInterval, line 108) elapsed since lastSendTime;
   lastSendTime is then set to the current instant unconditionally, with no
   look at the step results (lines 166-170).  Returns the upload performed, if
   any, and the new lastSendTime. -/
def uploadGate (env : UploadEnv) (now : Nat) (ppm : Int)
    (temperature humidity : Option Int) (lastSendTime : Nat) :
    Option UploadRecord × Nat :=
  if ppm < 1000 then (none, lastSendTime)
  else if 1000 ≤ ppm ∧ ppm < 2500 then (none, lastSendTime)
  else if 15000 ≤ now - lastSendTime then
    let u := sendToThingSpeak env temperature humidity ppm
    (some ⟨temperature, humidity, ppm, u.1⟩, now)
  else (none, lastSendTime)

/- The indicator writes of the threshold chain: the blinking thresholds 1, 3
   and 5 run ledBlink, the solid thresholds leave the blink statics alone. -/
def indicatorUpdate (now : Nat) (ppm : Int) (b : BlinkState) : BlinkState :=
  if ppm < 1000 then b
  else if 1000 ≤ ppm ∧ ppm < 2500 then (ledBlink ppm now b).1
  else if 2500 ≤ ppm ∧ ppm < 5000 then b
  else if 5000 ≤ ppm ∧ ppm < 10000 then (ledBlink ppm now b).1
  else if 10000 ≤ ppm ∧ ppm < 30000 then b
  else if 30000 ≤ ppm then (ledBlink ppm now b).1
  else b

/- All process-lifetime state touched by loop(). -/
structure LoopState where
  alarm : AlarmState
  co2Level : Int
  lastSendTime : Nat
  blink : BlinkState
  measurementTimestamp : Nat
deriving DecidableEq, Repr

/- Observable outcome of one loop() pass. -/
structure LoopOutput where
  upload : Option UploadRecord
  alarmTrace : List AlarmAction
  envDisplayed : Option (Int × Int)
deriving DecidableEq, Repr

/- One pass of loop(), lines 101-217, at instant now.  The locals temperature
   and humidity (lines 104-105) are declared without an initializer; they are
   modeled as none, and nothing assigns them before the upload call at line
   168 uses them: measureEnvironment, the only assigning call, runs at line
   205, after the whole sensor block.  reading models the outcome of
   co2_sensor.measure(). -/
def loopStep (env : UploadEnv) (now : Nat) (reading : Option Int)
    (dht : Option (Int × Int)) (s : LoopState) : LoopState × LoopOutput :=
  let temperature : Option Int := none
  let humidity : Option Int := none
  match reading with
  | none =>
    let m := measureEnvironment now s.measurementTimestamp dht
    ({ s with measurementTimestamp := m.2 },
     { upload := none, alarmTrace := [], envDisplayed := m.1 })
  | some ppm =>
    let blink2 := indicatorUpdate now ppm s.blink
    let up := uploadGate env now ppm temperature humidity s.lastSendTime
    let a := alarmStep s.alarm (classify ppm) ppm
    let m := measureEnvironment now s.measurementTimestamp dht
    ({ alarm := a.1, co2Level := ppm, lastSendTime := up.2, blink := blink2,
       measurementTimestamp := m.2 },
     { upload := up.1, alarmTrace := a.2, envDisplayed := m.1 })

/- Boot loop state. -/
def initLoop : LoopState :=
  ⟨initAlarm, 0, 0, ⟨0, false⟩, 0⟩

/- Environment whose markers arrive immediately, and one whose markers never
   arrive, used to instantiate the theorems at concrete inputs. -/
def envW : UploadEnv := ⟨⟨some 0⟩, ⟨some 0⟩, ⟨some 0⟩⟩
def envFail : UploadEnv := ⟨⟨none⟩, ⟨none⟩, ⟨none⟩⟩

/- Helper lemmas -/

theorem classify_ge_two (p : Int) : 2 ≤ classify p ↔ 2500 ≤ p := by
  unfold classify
  split_ifs <;> omega

theorem buzzerManager_snd (a b : Int) :
    (buzzerManager a b).2 = AlarmAction.pulse NOTE_C5 (buzzerManager a b).1 := rfl

theorem alarmStep_lastThreshold (t : AlarmState) (c p : Int) :
    (alarmStep t c p).1.lastCO2Threshold = c := by
  unfold alarmStep
  by_cases hc : c ≠ t.lastCO2Threshold
  · simp only [if_pos hc]
  · simp only [if_neg hc]
    omega

theorem alarmStep_same (t : AlarmState) (c p : Int) (h : c = t.lastCO2Threshold) :
    alarmStep t c p = (t, []) := by
  unfold alarmStep
  rw [if_neg (not_not_intro h)]

theorem deleteTimer_all (p : TimerPool) (i : Int) (h : ∀ t ∈ p.timers, t.1 = i) :
    (p.deleteTimer i).timers = [] := by
  rcases p with ⟨l, n⟩
  simp only [TimerPool.deleteTimer]
  rw [List.filter_eq_nil_iff]
  intro a ha
  simp [h a ha]

theorem armFor_inv (q : TimerPool) (c x y : Int) (hq : q.timers = []) (hn : 0 ≤ q.nextId) :
    AlarmInv ⟨(armFor q c (-1)).1, (armFor q c (-1)).2.1, x, y⟩ := by
  unfold armFor TimerPool.setInterval AlarmInv
  split_ifs <;>
    refine ⟨?_, ?_, ?_, ?_⟩ <;> simp_all <;> omega

theorem armFor_trace (q : TimerPool) (c tid : Int) :
    (armFor q c tid).2.2.countP AlarmAction.isCancel = 0 ∧
    (armFor q c tid).2.2.countP AlarmAction.isArm ≤ 1 := by
  unfold armFor TimerPool.setInterval
  split_ifs <;> simp [AlarmAction.isCancel, AlarmAction.isArm]

theorem alarmStep_inv (s : AlarmState) (c ppm : Int) (h : AlarmInv s) :
    AlarmInv (alarmStep s c ppm).1 := by
  by_cases hne : c ≠ s.lastCO2Threshold
  · by_cases ht : s.timerId ≠ -1
    · have e : (alarmStep s c ppm).1 =
          ⟨(armFor (s.pool.deleteTimer s.timerId) c (-1)).1,
           (armFor (s.pool.deleteTimer s.timerId) c (-1)).2.1, c,
           (buzzerManager ppm s.buzzerDuration).1⟩ := by
        simp [alarmStep, hne, ht]
      rw [e]
      exact armFor_inv _ _ _ _ (deleteTimer_all s.pool s.timerId h.2.1)
        (by simpa [TimerPool.deleteTimer] using h.2.2.2)
    · have hid : s.timerId = -1 := not_not.mp ht
      have e : (alarmStep s c ppm).1 =
          ⟨(armFor s.pool c (-1)).1, (armFor s.pool c (-1)).2.1, c,
           (buzzerManager ppm s.buzzerDuration).1⟩ := by
        simp [alarmStep, hne, ht, hid]
      rw [e]
      exact armFor_inv _ _ _ _ (h.2.2.1 hid) h.2.2.2
  · rw [alarmStep_same s c ppm (not_not.mp hne)]
    exact h

theorem initAlarm_inv : AlarmInv initAlarm := by
  refine ⟨?_, ?_, ?_, ?_⟩ <;> simp [initAlarm, AlarmInv]

theorem alarmRun_inv (readings : List Int) : AlarmInv (alarmRun readings) := by
  have key : ∀ (l : List Int) (s : AlarmState), AlarmInv s →
      AlarmInv (l.foldl (fun s ppm => (alarmStep s (classify ppm) ppm).1) s) := by
    intro l
    induction l with
    | nil => intro s hs; exact hs
    | cons a as ih => intro s hs; exact ih _ (alarmStep_inv s (classify a) a hs)
  exact key readings initAlarm initAlarm_inv

theorem alarmStep_trace (s : AlarmState) (c ppm : Int)
    (hne : c ≠ s.lastCO2Threshold) (ht : s.timerId ≠ -1) :
    (alarmStep s c ppm).2.head? = some (AlarmAction.cancel s.timerId) ∧
    (alarmStep s c ppm).2.countP AlarmAction.isCancel = 1 ∧
    (alarmStep s c ppm).2.countP AlarmAction.isArm ≤ 1 := by
  have e : (alarmStep s c ppm).2 =
      AlarmAction.cancel s.timerId :: (buzzerManager ppm s.buzzerDuration).2 ::
        (armFor (s.pool.deleteTimer s.timerId) c (-1)).2.2 := by
    simp [alarmStep, hne, ht]
  rw [e]
  have harm := armFor_trace (s.pool.deleteTimer s.timerId) c (-1)
  refine ⟨rfl, ?_, ?_⟩
  · rw [List.countP_cons, List.countP_cons, buzzerManager_snd, harm.1]
    simp [AlarmAction.isCancel]
  · rw [List.countP_cons, List.countP_cons, buzzerManager_snd]
    have := harm.2
    simp [AlarmAction.isArm]
    omega

theorem pollLoop_fail (tr : MockTransport) (start maxTime : Nat)
    (hfail : ∀ u, u < start + maxTime → findPoll tr u = false) :
    ∀ fuel t, start ≤ t → t + fuel = start + maxTime + 1 → t ≤ start + maxTime →
      pollLoop tr start maxTime fuel t = (false, start + maxTime) := by
  intro fuel
  induction fuel with
  | zero =>
    intro t h1 h2 h3
    exact absurd h2 (by omega)
  | succ f ih =>
    intro t h1 h2 h3
    simp only [pollLoop]
    by_cases hlt : t - start < maxTime
    · rw [if_pos hlt, hfail t (by omega)]
      simp only [Bool.false_eq_true, if_false]
      exact ih (t + 1) (by omega) (by omega) (by omega)
    · rw [if_neg hlt]
      have he : t = start + maxTime := by omega
      rw [he]

theorem pollLoop_found (tr : MockTransport) (start maxTime e : Nat)
    (htr : tr.emitAt = some e) (hm : 0 < maxTime) (he : e < start + maxTime) :
    ∀ fuel t, start ≤ t → t + fuel = start + maxTime + 1 → (t = start ∨ t ≤ e) →
      (pollLoop tr start maxTime fuel t).1 = true := by
  intro fuel
  induction fuel with
  | zero =>
    intro t h1 h2 h3
    exact absurd h2 (by omega)
  | succ f ih =>
    intro t h1 h2 h3
    simp only [pollLoop]
    have hlt : t - start < maxTime := by omega
    rw [if_pos hlt]
    by_cases hf : findPoll tr t = true
    · rw [if_pos hf]
    · rw [if_neg hf]
      have hgt : ¬ e ≤ t := by
        intro hle
        exact hf (by simp [findPoll, htr, hle])
      exact ih (t + 1) (by omega) (by omega) (by omega)

theorem uploadGate_eq (env : UploadEnv) (now : Nat) (ppm : Int)
    (te hu : Option Int) (last : Nat) :
    uploadGate env now ppm te hu last =
      if 2500 ≤ ppm ∧ 15000 ≤ now - last then
        (some ⟨te, hu, ppm, (sendToThingSpeak env te hu ppm).1⟩, now)
      else (none, last) := by
  simp only [uploadGate]
  split_ifs <;> first | rfl | (exfalso; omega)

theorem loopStep_upload (env : UploadEnv) (now : Nat) (p : Int)
    (dht : Option (Int × Int)) (s : LoopState) :
    (loopStep env now (some p) dht s).2.upload =
      (uploadGate env now p none none s.lastSendTime).1 := rfl

theorem loopStep_lastSend (env : UploadEnv) (now : Nat) (p : Int)
    (dht : Option (Int × Int)) (s : LoopState) :
    (loopStep env now (some p) dht s).1.lastSendTime =
      (uploadGate env now p none none s.lastSendTime).2 := rfl

/- Claim theorems -/

/-- Claim C1, counterexample: the claim sends every reading with ppm ≤ 0 to
Extreme (level 5), but the classification chain of loop() puts such readings
into its first branch, ppm < 1000, which is Normal (level 0): both the zero
reading and a negative reading classify as 0, not 5. -/
theorem C1_counterexample :
    classify 0 = 0 ∧ classify (-1) = 0 ∧ ((0 : Int) ≠ 5) := by decide

/-- Claim C1, amended: classification is total and deterministic with values in
the range 0..5 (the -1 initialization is unreachable), boundary readings land
in the higher band, ppm ≥ 30000 is Extreme, and every reading below 1000 —
including zero and every negative reading — is Normal, not Extreme. -/
theorem C1_classify_bands (ppm : Int) :
    (0 ≤ classify ppm ∧ classify ppm ≤ 5) ∧
    (ppm < 1000 → classify ppm = 0) ∧
    (1000 ≤ ppm → ppm < 2500 → classify ppm = 1) ∧
    (2500 ≤ ppm → ppm < 5000 → classify ppm = 2) ∧
    (5000 ≤ ppm → ppm < 10000 → classify ppm = 3) ∧
    (10000 ≤ ppm → ppm < 30000 → classify ppm = 4) ∧
    (30000 ≤ ppm → classify ppm = 5) := by
  unfold classify
  split_ifs <;> omega

/-- Claim C1, witness: the amended band theorem applied at every boundary value
and at a negative reading. -/
theorem C1_classify_bands_witness :
    classify (-1) = 0 ∧ classify 999 = 0 ∧ classify 1000 = 1 ∧ classify 2499 = 1 ∧
    classify 2500 = 2 ∧ classify 4999 = 2 ∧ classify 5000 = 3 ∧ classify 9999 = 3 ∧
    classify 10000 = 4 ∧ classify 29999 = 4 ∧ classify 30000 = 5 :=
  ⟨(C1_classify_bands (-1)).2.1 (by decide),
   (C1_classify_bands 999).2.1 (by decide),
   (C1_classify_bands 1000).2.2.1 (by decide) (by decide),
   (C1_classify_bands 2499).2.2.1 (by decide) (by decide),
   (C1_classify_bands 2500).2.2.2.1 (by decide) (by decide),
   (C1_classify_bands 4999).2.2.2.1 (by decide) (by decide),
   (C1_classify_bands 5000).2.2.2.2.1 (by decide) (by decide),
   (C1_classify_bands 9999).2.2.2.2.1 (by decide) (by decide),
   (C1_classify_bands 10000).2.2.2.2.2.1 (by decide) (by decide),
   (C1_classify_bands 29999).2.2.2.2.2.1 (by decide) (by decide),
   (C1_classify_bands 30000).2.2.2.2.2.2 (by decide)⟩

/-- Claim C2, counterexample: the claim arms no timer for High and a 10 s timer
for Severe, but a transition into threshold 3 (Severe) arms a 5000 ms timer and
a transition into threshold 2 (High) arms a 10000 ms timer. -/
theorem C2_counterexample :
    (alarmStep initAlarm 3 6000).2.filter AlarmAction.isArm = [AlarmAction.arm 0 5000] ∧
    (alarmStep initAlarm 2 3000).2.filter AlarmAction.isArm = [AlarmAction.arm 0 10000] ∧
    claimedPeriodForLevel 3 = some 10000 ∧
    claimedPeriodForLevel 2 = none := by decide

/-- Claim C2, amended: on every severity transition the newly armed periodic
timer period is given by the switch of lines 186-200: Normal and Elevated arm
no timer, High arms 10 s, Severe arms 5 s, and Critical and Extreme arm 1 s. -/
theorem C2_arm_periods (s : AlarmState) (c ppm : Int) (h : c ≠ s.lastCO2Threshold) :
    (alarmStep s c ppm).2.filter AlarmAction.isArm =
      (match periodForThreshold c with
       | some per => [AlarmAction.arm s.pool.nextId per]
       | none => []) := by
  have hq : ∀ (q : TimerPool) (tid : Int),
      (armFor q c tid).2.2 =
        (match periodForThreshold c with
         | some per => [AlarmAction.arm q.nextId per]
         | none => []) := by
    intro q tid
    unfold armFor periodForThreshold TimerPool.setInterval
    split_ifs <;> rfl
  by_cases ht : s.timerId ≠ -1
  · have e : (alarmStep s c ppm).2 =
        AlarmAction.cancel s.timerId :: (buzzerManager ppm s.buzzerDuration).2 ::
          (armFor (s.pool.deleteTimer s.timerId) c (-1)).2.2 := by
      simp [alarmStep, h, ht]
    rw [e, hq]
    cases hp : periodForThreshold c <;>
      simp [buzzerManager_snd, AlarmAction.isArm, TimerPool.deleteTimer]
  · have e : (alarmStep s c ppm).2 =
        (buzzerManager ppm s.buzzerDuration).2 :: (armFor s.pool c s.timerId).2.2 := by
      simp [alarmStep, h, ht]
    rw [e, hq]
    cases hp : periodForThreshold c <;>
      simp [buzzerManager_snd, AlarmAction.isArm]

/-- Claim C2, witness: the amended period table applied to a concrete Critical
transition, which arms a 1000 ms timer. -/
theorem C2_arm_periods_witness :
    (alarmStep initAlarm 4 12000).2.filter AlarmAction.isArm = [AlarmAction.arm 0 1000] :=
  (C2_arm_periods initAlarm 4 12000 (by decide)).trans (by decide)

/-- Claim C4, counterexample: the claim demands silence for ppm below 1000
regardless of any earlier pulse duration, but buzzerManager always issues a
tone: after a pulse at 2000 ppm stored duration 2000, a pulse at 500 ppm still
sounds for 2000 ms, while from a fresh state the same reading sounds with the
initial duration 0 — so the emitted pulse below 1000 ppm is not silence and
does depend on the earlier duration. -/
theorem C4_counterexample :
    (buzzerManager 500 (buzzerManager 2000 0).1).2 = AlarmAction.pulse NOTE_C5 2000 ∧
    (buzzerManager 500 0).2 = AlarmAction.pulse NOTE_C5 0 := by decide

/-- Claim C4, amended: every alarm pulse selects the tone duration from the
current raw ppm as 2000 ms on [1000,5000), 1000 ms on [5000,10000) and 500 ms
at or above 10000; below 1000 the pulse is not silent — it reuses whatever
duration the static variable last held. -/
theorem C4_pulse_durations (ppm d : Int) :
    (1000 ≤ ppm → ppm < 5000 → buzzerManager ppm d = (2000, AlarmAction.pulse NOTE_C5 2000)) ∧
    (5000 ≤ ppm → ppm < 10000 → buzzerManager ppm d = (1000, AlarmAction.pulse NOTE_C5 1000)) ∧
    (10000 ≤ ppm → buzzerManager ppm d = (500, AlarmAction.pulse NOTE_C5 500)) ∧
    (ppm < 1000 → buzzerManager ppm d = (d, AlarmAction.pulse NOTE_C5 d)) := by
  refine ⟨fun h1 h2 => ?_, fun h1 h2 => ?_, fun h1 => ?_, fun h1 => ?_⟩ <;>
    simp only [buzzerManager] <;> split_ifs <;> first | rfl | (exfalso; omega)

/-- Claim C4, witness: the amended duration table applied at a reading in each
band and at a low reading with a leftover stored duration. -/
theorem C4_pulse_durations_witness :
    buzzerManager 2000 0 = (2000, AlarmAction.pulse NOTE_C5 2000) ∧
    buzzerManager 6000 0 = (1000, AlarmAction.pulse NOTE_C5 1000) ∧
    buzzerManager 20000 0 = (500, AlarmAction.pulse NOTE_C5 500) ∧
    buzzerManager 500 7 = (7, AlarmAction.pulse NOTE_C5 7) :=
  ⟨(C4_pulse_durations 2000 0).1 (by decide) (by decide),
   (C4_pulse_durations 6000 0).2.1 (by decide) (by decide),
   (C4_pulse_durations 20000 0).2.2.1 (by decide),
   (C4_pulse_durations 500 7).2.2.2 (by decide)⟩

/-- Claim C9: severity transitions are idempotent — when the newly classified
level equals the recorded one, the alarm block does nothing (the state is
unchanged and no cancel, pulse or arm action is emitted), and in particular
feeding the same reading twice in a row performs no timer action the second
time. -/
theorem C9_idempotent_transition (s : AlarmState) (c ppm ppm2 : Int)
    (h : c = s.lastCO2Threshold) :
    alarmStep s c ppm = (s, []) ∧
    alarmStep (alarmStep s (classify ppm2) ppm2).1 (classify ppm2) ppm2 =
      ((alarmStep s (classify ppm2) ppm2).1, []) :=
  ⟨alarmStep_same s c ppm h,
   alarmStep_same _ _ _ (alarmStep_lastThreshold s (classify ppm2) ppm2).symm⟩

/-- Claim C9, witness: the idempotence theorem applied at a concrete state
whose recorded threshold is 0 with a Normal reading, and a repeated Elevated
reading. -/
theorem C9_idempotent_transition_witness :
    alarmStep ⟨⟨[], 0⟩, -1, 0, 0⟩ 0 500 = (⟨⟨[], 0⟩, -1, 0, 0⟩, []) ∧
    alarmStep (alarmStep ⟨⟨[], 0⟩, -1, 0, 0⟩ (classify 1500) 1500).1 (classify 1500) 1500 =
      ((alarmStep ⟨⟨[], 0⟩, -1, 0, 0⟩ (classify 1500) 1500).1, []) :=
  C9_idempotent_transition ⟨⟨[], 0⟩, -1, 0, 0⟩ 0 500 1500 rfl

/-- Claim C5: at most one alarm timer is ever live — after any sequence of
readings from boot, the timer pool holds at most one armed timer, this is
preserved by one more step, and a transition with a pending timer emits
exactly one cancel, of that timer, as its very first action, before at most
one arm. -/
theorem C5_at_most_one_timer (readings : List Int) (ppm : Int) :
    (alarmRun readings).pool.timers.length ≤ 1 ∧
    (alarmStep (alarmRun readings) (classify ppm) ppm).1.pool.timers.length ≤ 1 ∧
    (classify ppm ≠ (alarmRun readings).lastCO2Threshold →
      (alarmRun readings).timerId ≠ -1 →
      ((alarmStep (alarmRun readings) (classify ppm) ppm).2.head? =
          some (AlarmAction.cancel (alarmRun readings).timerId) ∧
        (alarmStep (alarmRun readings) (classify ppm) ppm).2.countP AlarmAction.isCancel = 1 ∧
        (alarmStep (alarmRun readings) (classify ppm) ppm).2.countP AlarmAction.isArm ≤ 1)) := by
  have h := alarmRun_inv readings
  exact ⟨h.1, (alarmStep_inv _ _ _ h).1,
    fun hne ht => alarmStep_trace _ _ _ hne ht⟩

/-- Claim C5, witness: the single-timer theorem applied to the reading sequence
Severe then Critical, whose transition cancels timer 0 before arming timer 1. -/
theorem C5_at_most_one_timer_witness :
    (alarmRun [6000]).pool.timers.length ≤ 1 ∧
    (alarmStep (alarmRun [6000]) (classify 20000) 20000).1.pool.timers.length ≤ 1 ∧
    ((alarmStep (alarmRun [6000]) (classify 20000) 20000).2.head? =
        some (AlarmAction.cancel (alarmRun [6000]).timerId) ∧
      (alarmStep (alarmRun [6000]) (classify 20000) 20000).2.countP AlarmAction.isCancel = 1 ∧
      (alarmStep (alarmRun [6000]) (classify 20000) 20000).2.countP AlarmAction.isArm ≤ 1) := by
  have h := C5_at_most_one_timer [6000] 20000
  exact ⟨h.1, h.2.1, h.2.2 (by decide) (by decide)⟩

set_option maxRecDepth 40000 in
/-- Claim C8, counterexample: the claim says the toggle count over 2000 ms is
independent of the call frequency, but because the blink clock restarts at the
call instant that fires the toggle, calling ledBlink every 10 ms yields 4
toggles over 2000 ms while calling it every 200 ms yields 3. -/
theorem C8_counterexample :
    blinkToggleCount 1500 (schedule 10 201) ⟨0, false⟩ = 4 ∧
    blinkToggleCount 1500 (schedule 200 11) ⟨0, false⟩ = 3 ∧
    (4 ≠ 3) := by decide

/-- Claim C8, amended: while in a blinking band the indicator toggles at the
first call at least 500 ms after the last toggle, measured from a monotonic
clock reset to the call instant when the toggle fires, and earlier calls leave
the state untouched; consequently (see the counterexample) the toggle count
over a fixed horizon does depend on how often the routine is called. -/
theorem C8_blink_toggle (c : Int) (s : BlinkState) (t : Nat) :
    ((ledBlink c t s).2.isSome ↔ s.ledStartTime + 500 ≤ t) ∧
    (s.ledStartTime + 500 ≤ t → (ledBlink c t s).1 = ⟨t, !s.ledOn⟩) ∧
    (t < s.ledStartTime + 500 → ledBlink c t s = (s, none)) := by
  by_cases hc : 500 ≤ t - s.ledStartTime
  · refine ⟨?_, fun h => ?_, fun h => ?_⟩
    · simp [ledBlink, hc]
      omega
    · simp [ledBlink, hc]
    · exact absurd h (by omega)
  · refine ⟨?_, fun h => ?_, fun h => ?_⟩
    · simp [ledBlink, hc]
      omega
    · exact absurd h (by omega)
    · simp [ledBlink, hc]

/-- Claim C8, witness: the toggle characterization applied at the 500 ms
boundary and just before it. -/
theorem C8_blink_toggle_witness :
    (ledBlink 1500 500 ⟨0, false⟩).1 = ⟨500, true⟩ ∧
    ledBlink 1500 499 ⟨0, false⟩ = (⟨0, false⟩, none) :=
  ⟨(C8_blink_toggle 1500 ⟨0, false⟩ 500).2.1 (by decide),
   (C8_blink_toggle 1500 ⟨0, false⟩ 499).2.2 (by decide)⟩

/-- Claim C7: sendCommand writes the command plus the line terminator to the
serial transport, then polls the inbound stream against the clock; it reports
success exactly when the expected marker appears in the window of timeoutMs
polls (and at least one poll happens), and when the marker never appears it
reports failure with the wait ending exactly timeoutMs after it began. -/
theorem C7_send_engine (tr : MockTransport) (cmd : String) (start maxTime : Nat) :
    ((sendCommand tr cmd start maxTime).1 = cmd ++ "\r\n") ∧
    ((sendCommand tr cmd start maxTime).2.1 = true ↔
      (∃ e, tr.emitAt = some e ∧ e < start + maxTime) ∧ 0 < maxTime) ∧
    (tr.emitAt = none →
      (sendCommand tr cmd start maxTime).2.1 = false ∧
      (sendCommand tr cmd start maxTime).2.2 = start + maxTime) := by
  refine ⟨rfl, ⟨?_, ?_⟩, fun hn => ?_⟩
  · intro hs
    by_cases hm : 0 < maxTime
    · cases htr : tr.emitAt with
      | none =>
        have hfail : ∀ u, u < start + maxTime → findPoll tr u = false := by
          intro u _
          simp [findPoll, htr]
        have h0 := pollLoop_fail tr start maxTime hfail (maxTime + 1) start
          le_rfl (by omega) (by omega)
        simp only [sendCommand] at hs
        rw [h0] at hs
        exact absurd hs (by simp)
      | some e =>
        by_cases he : e < start + maxTime
        · exact ⟨⟨e, rfl, he⟩, hm⟩
        · have hfail : ∀ u, u < start + maxTime → findPoll tr u = false := by
            intro u hu
            simp only [findPoll, htr, decide_eq_false_iff_not]
            omega
          have h0 := pollLoop_fail tr start maxTime hfail (maxTime + 1) start
            le_rfl (by omega) (by omega)
          simp only [sendCommand] at hs
          rw [h0] at hs
          exact absurd hs (by simp)
    · have hz : maxTime = 0 := by omega
      subst hz
      simp only [sendCommand, pollLoop] at hs
      rw [if_neg (by omega)] at hs
      exact absurd hs (by simp)
  · rintro ⟨⟨e, htr, he⟩, hm⟩
    exact pollLoop_found tr start maxTime e htr hm he (maxTime + 1) start
      le_rfl (by omega) (Or.inl rfl)
  · have hfail : ∀ u, u < start + maxTime → findPoll tr u = false := by
      intro u _
      simp [findPoll, hn]
    have h0 := pollLoop_fail tr start maxTime hfail (maxTime + 1) start
      le_rfl (by omega) (by omega)
    constructor
    · simp only [sendCommand]
      rw [h0]
    · simp only [sendCommand]
      rw [h0]

/-- Claim C7, witness: the engine theorem applied to the AT liveness probe —
a transport emitting the marker at 500 ms makes send report success within a
2000 ms timeout, and a silent transport makes it report failure with the wait
ending at 2000 ms. -/
theorem C7_send_engine_witness :
    (sendCommand ⟨some 500⟩ "AT" 0 2000).2.1 = true ∧
    (sendCommand ⟨none⟩ "AT" 0 2000).2.1 = false ∧
    (sendCommand ⟨none⟩ "AT" 0 2000).2.2 = 2000 :=
  ⟨(C7_send_engine ⟨some 500⟩ "AT" 0 2000).2.1.mpr ⟨⟨500, rfl, by omega⟩, by omega⟩,
   ((C7_send_engine ⟨none⟩ "AT" 0 2000).2.2 rfl).1,
   ((C7_send_engine ⟨none⟩ "AT" 0 2000).2.2 rfl).2⟩

/-- Claim C6: a telemetry upload is attempted exactly when the classified
severity is at least High (threshold 2, i.e. ppm ≥ 2500) and at least 15 s
elapsed since the last invocation attempt; after an attempt, a second eligible
tick less than 15 s later attempts nothing, while a second eligible tick at
least 15 s later attempts again — whatever the command results of the first
attempt were, since both ticks take arbitrary transport environments. -/
theorem C6_upload_gating (env env2 : UploadEnv) (s : LoopState)
    (dht dht2 : Option (Int × Int)) (t1 t2 : Nat) (p1 p2 : Int) :
    ((loopStep env t1 (some p1) dht s).2.upload.isSome ↔
      2 ≤ classify p1 ∧ 15000 ≤ t1 - s.lastSendTime) ∧
    ((loopStep env t1 (some p1) dht s).2.upload.isSome →
      (t2 - t1 < 15000 →
        (loopStep env2 t2 (some p2) dht2 (loopStep env t1 (some p1) dht s).1).2.upload =
          none) ∧
      (15000 ≤ t2 - t1 → 2 ≤ classify p2 →
        (loopStep env2 t2 (some p2) dht2
          (loopStep env t1 (some p1) dht s).1).2.upload.isSome)) := by
  by_cases hc : 2500 ≤ p1 ∧ 15000 ≤ t1 - s.lastSendTime
  · have hL : (loopStep env t1 (some p1) dht s).1.lastSendTime = t1 := by
      rw [loopStep_lastSend, uploadGate_eq, if_pos hc]
    constructor
    · rw [loopStep_upload, uploadGate_eq, if_pos hc]
      simp [classify_ge_two, hc.1, hc.2]
    · intro _
      constructor
      · intro hlt
        rw [loopStep_upload, uploadGate_eq, if_neg]
        rw [hL]
        rintro ⟨_, hbad⟩
        omega
      · intro hge hp2
        rw [loopStep_upload, uploadGate_eq, if_pos]
        · simp
        · rw [hL]
          exact ⟨(classify_ge_two p2).mp hp2, hge⟩
  · constructor
    · rw [loopStep_upload, uploadGate_eq, if_neg hc]
      simp only [Option.isSome_none, Bool.false_eq_true, false_iff, classify_ge_two]
      omega
    · intro habs
      rw [loopStep_upload, uploadGate_eq, if_neg hc] at habs
      exact absurd habs (by simp)

/-- Claim C6, witness: the gating theorem applied to a High tick at 15 s from
boot, a second eligible tick 14999 ms later that attempts nothing, and one
15000 ms later that attempts again. -/
theorem C6_upload_gating_witness :
    (loopStep envW 15000 (some 2500) none initLoop).2.upload.isSome ∧
    (loopStep envW 29999 (some 9000) none
      (loopStep envW 15000 (some 2500) none initLoop).1).2.upload = none ∧
    (loopStep envW 30000 (some 9000) none
      (loopStep envW 15000 (some 2500) none initLoop).1).2.upload.isSome := by
  have h1 := C6_upload_gating envW envW initLoop none none 15000 29999 2500 9000
  have h2 := C6_upload_gating envW envW initLoop none none 15000 30000 2500 9000
  have hfire : (loopStep envW 15000 (some 2500) none initLoop).2.upload.isSome :=
    h1.1.mpr ⟨by decide, by decide⟩
  exact ⟨hfire, (h1.2 hfire).1 (by decide), (h2.2 hfire).2 (by decide) (by decide)⟩

theorem sendCommand_silent (cmd : String) (maxTime : Nat) :
    (sendCommand ⟨none⟩ cmd 0 maxTime).2 = (false, maxTime) := by
  have hfail : ∀ u, u < 0 + maxTime → findPoll ⟨none⟩ u = false := by
    intro u _
    simp [findPoll]
  have h0 := pollLoop_fail ⟨none⟩ 0 maxTime hfail (maxTime + 1) 0
    le_rfl (by omega) (by omega)
  simp only [sendCommand]
  rw [h0]
  simp

theorem sendToThingSpeak_envFail (te hu : Option Int) (co2 : Int) :
    (sendToThingSpeak envFail te hu co2).1 = [false, false, false] := by
  have h1 := sendCommand_silent ("AT+CIPSTART=\"TCP\",\"" ++ HOST ++ "\"," ++ PORT) 4000
  have h2 := sendCommand_silent ("AT+CIPSEND=") 2000
  have h3 := sendCommand_silent ("AT+CIPCLOSE") 2000
  simp only [sendToThingSpeak, envFail]
  rw [h1, h2, h3]

/-- Claim C3, counterexample: the claim says lastSendTime is mutated only after
a fully successful upload, but against an environment whose markers never
arrive every command step fails and the timestamp is still advanced from 0 to
the tick time, so the next attempt is pushed back a full interval. -/
theorem C3_counterexample :
    (loopStep envFail 20000 (some 3000) none initLoop).2.upload =
      some ⟨none, none, 3000, [false, false, false]⟩ ∧
    (loopStep envFail 20000 (some 3000) none initLoop).1.lastSendTime = 20000 ∧
    initLoop.lastSendTime = 0 := by
  have hc : (2500 : Int) ≤ 3000 ∧ 15000 ≤ 20000 - initLoop.lastSendTime := by decide
  refine ⟨?_, ?_, rfl⟩
  · rw [loopStep_upload, uploadGate_eq, if_pos hc, sendToThingSpeak_envFail]
  · rw [loopStep_lastSend, uploadGate_eq, if_pos hc]

/-- Claim C3, amended: lastSendTime is updated to the tick time after every
upload invocation, successful or not — the command results are only logged
and never consulted — so a failed upload is retried at the next tick at least
one full interval later, exactly like a successful one; in particular the new
timestamp is the same whatever transport environment the upload ran against,
and the upload fires against any environment. -/
theorem C3_lastSend_updated_unconditionally (env env2 : UploadEnv) (s : LoopState)
    (dht dht2 : Option (Int × Int)) (now : Nat) (p : Int)
    (h : (loopStep env now (some p) dht s).2.upload.isSome) :
    (loopStep env now (some p) dht s).1.lastSendTime = now ∧
    (loopStep env2 now (some p) dht2 s).1.lastSendTime = now ∧
    (loopStep env2 now (some p) dht2 s).2.upload.isSome := by
  rw [loopStep_upload, uploadGate_eq] at h
  by_cases hc : 2500 ≤ p ∧ 15000 ≤ now - s.lastSendTime
  · refine ⟨?_, ?_, ?_⟩
    · rw [loopStep_lastSend, uploadGate_eq, if_pos hc]
    · rw [loopStep_lastSend, uploadGate_eq, if_pos hc]
    · rw [loopStep_upload, uploadGate_eq, if_pos hc]
      simp
  · rw [if_neg hc] at h
    exact absurd h (by simp)

/-- Claim C3, witness: the unconditional-update theorem applied at a tick at
20 s against the immediate environment, concluding for the never-answering
environment as well. -/
theorem C3_lastSend_updated_unconditionally_witness :
    (loopStep envW 20000 (some 3000) none initLoop).1.lastSendTime = 20000 ∧
    (loopStep envFail 20000 (some 3000) none initLoop).1.lastSendTime = 20000 ∧
    (loopStep envFail 20000 (some 3000) none initLoop).2.upload.isSome :=
  C3_lastSend_updated_unconditionally envW envFail initLoop none none 20000 3000
    (by decide)

/-- Claim C10: whenever a loop pass performs a telemetry upload, the
temperature and humidity it hands to the uploader are the loop-local variables
of that pass, which are still unassigned (none): the environment measurement
that could assign them runs only after the upload in the same pass. -/
theorem C10_upload_uninitialized_env (env : UploadEnv) (now : Nat) (p : Int)
    (dht : Option (Int × Int)) (s : LoopState) (r : UploadRecord)
    (h : (loopStep env now (some p) dht s).2.upload = some r) :
    r.temperature = none ∧ r.humidity = none := by
  rw [loopStep_upload, uploadGate_eq] at h
  by_cases hc : 2500 ≤ p ∧ 15000 ≤ now - s.lastSendTime
  · rw [if_pos hc] at h
    rw [Option.some_inj] at h
    rw [← h]
    exact ⟨rfl, rfl⟩
  · rw [if_neg hc] at h
    exact absurd h (by simp)

/-- Claim C10, witness: the uninitialized-upload theorem applied to a concrete
pass at 20 s with a 3000 ppm reading, whose upload record carries no
temperature or humidity value. -/
theorem C10_upload_uninitialized_env_witness :
    (⟨none, none, 3000, [true, true, true]⟩ : UploadRecord).temperature = none ∧
    (⟨none, none, 3000, [true, true, true]⟩ : UploadRecord).humidity = none :=
  C10_upload_uninitialized_env envW 20000 3000 none initLoop
    ⟨none, none, 3000, [true, true, true]⟩ (by decide)
